import Mathlib

/-!
Verification of the luckydex unique-draw selection and persistence core.

Shallow embedding of `src/chalicelib/sheets.py` (class `SheetsClient`:
`get_winners`, `get_unique_random_entry`, `save_winner`, `_get_mock_entry`)
and of the `/luckydex` handler in `src/app.py`.

Modelling conventions:
- Python cell/dict values are modelled by `Val` (None, str, int, bool);
  `pythonStr` is Python's `str(...)`, `isTruthy` Python truthiness.
- A Python dict row is an association list `Row`; `rowGet` is `d.get(k)`
  (first matching key), `getWithDefault` is `d.get(k, default)`.
- `random.choice(xs)` is modelled by an oracle index `k`, selecting
  `xs[k % len(xs)]`; theorems quantify over `k` to cover every possible
  choice.
- Exceptions raised by the backing store are modelled by boolean oracles
  (`readOk` for the winners-sheet read inside `get_winners`, `storeFail`
  for any exception inside `save_winner`'s try block); `ValueError`s
  raised by the draw path itself are the `DrawError` type.
-/

deriving instance DecidableEq for Except

namespace Luckydex

/-- Python's `str.strip()`: drop leading and trailing whitespace. Implemented
over the character list so that concrete instances reduce in the kernel. -/
def pyStrip (s : String) : String :=
  String.mk (((s.data.dropWhile Char.isWhitespace).reverse.dropWhile
    Char.isWhitespace).reverse)

/-- Python's `str.lower()` (ASCII, which is all the code compares). -/
def pyLower (s : String) : String :=
  String.mk (s.data.map Char.toLower)

/-- A Python value as it occurs in rows handled by the code. -/
inductive Val where
  | none
  | str (s : String)
  | int (n : Int)
  | bool (b : Bool)
deriving DecidableEq, Repr

/-- Python `str(v)`. -/
def pythonStr : Val → String
  | Val.none => "None"
  | Val.str s => s
  | Val.int n => toString n
  | Val.bool b => if b then "True" else "False"

/-- Python truthiness of a value. -/
def isTruthy : Val → Bool
  | Val.none => false
  | Val.str s => s ≠ ""
  | Val.int n => n ≠ 0
  | Val.bool b => b

/-- A Python dict with string keys, as produced by `get_all_records`. -/
abbrev Row := List (String × Val)

/-- Python `r.get(k)` (`None` default is represented by `Option.none`). -/
def rowGet (r : Row) (k : String) : Option Val :=
  (r.find? (fun p => p.1 == k)).map (fun p => p.2)

/-- Python `r.get(k, d)`. -/
def getWithDefault (r : Row) (k : String) (d : Val) : Val :=
  (rowGet r k).getD d

/-- Python `r.get(lo, r.get(hi, None))` — the candidate-field extraction of
`get_unique_random_entry` (sheets.py lines 412-413). The capitalized key is
consulted only when the lowercase key is absent. -/
def candVal (r : Row) (lo hi : String) : Val :=
  match rowGet r lo with
  | some v => v
  | Option.none => getWithDefault r hi Val.none

/-- Python `r.get(lo, r.get(hi, ''))` — the result-field extraction used when
building the returned dict (sheets.py lines 433-440). -/
def candValD (r : Row) (lo hi : String) : Val :=
  match rowGet r lo with
  | some v => v
  | Option.none => getWithDefault r hi (Val.str "")

/-- Python `r.get(lo) or r.get(hi)` — the winner-record extraction of
`get_unique_random_entry` (sheets.py lines 383, 388): falls through to the
capitalized key whenever the lowercase value is falsy. -/
def orGet (r : Row) (lo hi : String) : Val :=
  let a := getWithDefault r lo Val.none
  if isTruthy a then a else getWithDefault r hi Val.none

/-- Python `str(v).strip()`. -/
def normStr (v : Val) : String := pyStrip (pythonStr v)

/-- Python `v is not None and v != ''` (the guard used before normalizing,
sheets.py lines 384, 389, 416-417). -/
def valIsRealValue (v : Val) : Bool :=
  (v != Val.none) && (v != Val.str "")

/-- One field of the prior-winner sets: sheets.py lines 381-390. For each
winner record, extract with `or`-chaining and, when the value is neither
`None` nor `''`, add `str(v).strip()`. -/
def logFieldVals (winners : List Row) (lo hi : String) : List String :=
  winners.filterMap (fun w =>
    let v := orGet w lo hi
    if valIsRealValue v then some (normStr v) else Option.none)

/-- Session exclusions: sheets.py lines 393-396 —
`str(x).strip() for x in xs if x and x != ''` over a list of strings. -/
def sessionNorm (xs : List String) : List String :=
  (xs.filter (fun s => s ≠ "")).map pyStrip

/-- `prior_ids` after both the winners-log pass and the session update. -/
def priorIds (winners : List Row) (excludeIds : List String) : List String :=
  logFieldVals winners "id" "ID" ++ sessionNorm excludeIds

/-- `prior_numbers` after both the winners-log pass and the session update. -/
def priorNumbers (winners : List Row) (excludeNumbers : List String) : List String :=
  logFieldVals winners "number" "Number" ++ sessionNorm excludeNumbers

/-- `candidate_id_str` / `candidate_number_str` (sheets.py lines 416-417):
the normalized candidate field, `Option.none` when the raw value is `None`
or `''`. -/
def normCand (r : Row) (lo hi : String) : Option String :=
  let v := candVal r lo hi
  if valIsRealValue v then some (normStr v) else Option.none

/-- `id_won` / `number_won` (sheets.py lines 420, 423). -/
def fieldWon (prior : List String) (r : Row) (lo hi : String) : Bool :=
  match normCand r lo hi with
  | some s => prior.contains s
  | Option.none => false

/-- The eligibility predicate (sheets.py line 426): neither field has won. -/
def eligiblePred (pids pnums : List String) (r : Row) : Bool :=
  !(fieldWon pids r "id" "ID") && !(fieldWon pnums r "number" "Number")

/-- The eligibility filter (sheets.py lines 410-427): keep, in order, the
records whose id and number are both unseen. -/
def eligibleEntries (records : List Row) (pids pnums : List String) : List Row :=
  records.filter (eligiblePred pids pnums)

/-- `get_timestamp` inside `get_winners` (sheets.py lines 306-309):
`r.get('timestamp') or r.get('Timestamp') or r.get('time') or ''`. -/
def getTimestamp (r : Row) : Val :=
  let a := getWithDefault r "timestamp" Val.none
  if isTruthy a then a else
    let b := getWithDefault r "Timestamp" Val.none
    if isTruthy b then b else
      let c := getWithDefault r "time" Val.none
      if isTruthy c then c else Val.str ""

/-- The sort key of sheets.py line 313 (`get_timestamp(r) or ''`), read as a
string: timestamp cells written by this code are always strings. -/
def tsKey (r : Row) : String :=
  let t := getTimestamp r
  if isTruthy t then pythonStr t else ""

/-- Lexicographic (code-point) string comparison, as Python compares the
timestamp keys. Structural so that concrete instances reduce in the kernel. -/
def charListLe : List Char → List Char → Bool
  | [], _ => true
  | _ :: _, [] => false
  | a :: as, b :: bs => if a < b then true else if b < a then false else charListLe as bs

/-- `a <= b` on strings. -/
def pyStrLe (a b : String) : Bool := charListLe a.data b.data

/-- Insert into a descending-sorted list, after all entries with a key `>=`
the new one (so that processing the original order left to right is exactly
a stable descending sort, which is what Python's `list.sort(...,
reverse=True)` computes). -/
def insertTsDesc (x : Row) : List Row → List Row
  | [] => [x]
  | y :: ys => if pyStrLe (tsKey x) (tsKey y) then y :: insertTsDesc x ys else x :: y :: ys

/-- `records.sort(key=..., reverse=True)` (sheets.py line 313): stable sort by
timestamp key, descending; empty timestamps sort last. -/
def sortByTsDesc (l : List Row) : List Row :=
  l.foldl (fun acc r => insertTsDesc r acc) []

/-- `get_winners` (sheets.py lines 270-319): on any read failure
(`readOk = false`, covering a missing winners sheet or a store error) the
exception is caught and the empty list returned; otherwise the stored
records sorted by timestamp descending. -/
def getWinners (readOk : Bool) (stored : List Row) : List Row :=
  if readOk then sortByTsDesc stored else []

/-- The two `ValueError`s the draw path can raise, keyed by their message. -/
inductive DrawError where
  | emptySource
  | noEligible
deriving DecidableEq, Repr

/-- The message string of each draw-path `ValueError`
(sheets.py lines 407 and 430). -/
def errorMessage : DrawError → String
  | DrawError.emptySource => "Spreadsheet is empty"
  | DrawError.noEligible => "No eligible entries remaining"

/-- The five hard-coded mock rows of `_get_mock_entry`
(sheets.py lines 127-133). -/
def mockRows : List Row :=
  [[("id", Val.int 1), ("number", Val.int 777), ("name", Val.str "Lucky Seven"),
    ("description", Val.str "The luckiest number")],
   [("id", Val.int 2), ("number", Val.int 888), ("name", Val.str "Fortune Eight"),
    ("description", Val.str "Symbol of prosperity")],
   [("id", Val.int 3), ("number", Val.int 333), ("name", Val.str "Triple Three"),
    ("description", Val.str "Magic number")],
   [("id", Val.int 4), ("number", Val.int 999), ("name", Val.str "Cloud Nine"),
    ("description", Val.str "Highest luck")],
   [("id", Val.int 5), ("number", Val.int 111), ("name", Val.str "New Beginning"),
    ("description", Val.str "Fresh start")]]

/-- `_get_mock_entry` (sheets.py lines 125-139) with choice oracle `k`:
a random mock row plus `total_entries = 5` and `_mock_data = True`. -/
def mockEntry (k : Nat) : Row :=
  (mockRows.getD (k % 5) []) ++
    [("total_entries", Val.int 5), ("_mock_data", Val.bool true)]

/-- The dict returned on the success path of `get_unique_random_entry`
(sheets.py lines 433-440). -/
def mkDrawResult (chosen : Row) (tot elig : Nat) : Row :=
  [("id", candValD chosen "id" "ID"),
   ("number", candValD chosen "number" "Number"),
   ("name", candValD chosen "name" "Name"),
   ("description", candValD chosen "description" "Description"),
   ("total_entries", Val.int (Int.ofNat tot)),
   ("eligible_entries", Val.int (Int.ofNat elig))]

/-- `get_unique_random_entry` (sheets.py lines 352-440). `clientInit` models
`self.client` being set; `readOk` is the winners-read oracle passed to
`get_winners`; `storedWinners` the winners sheet's records; `records` the
candidate pool read from the source sheet; `k` the `random.choice` oracle. -/
def getUniqueRandomEntry (clientInit readOk : Bool) (storedWinners : List Row)
    (records : List Row) (excludeIds excludeNumbers : List String) (k : Nat) :
    Except DrawError Row :=
  if !clientInit then Except.ok (mockEntry k)
  else
    let winners := getWinners readOk storedWinners
    let pids := priorIds winners excludeIds
    let pnums := priorNumbers winners excludeNumbers
    if records.isEmpty then Except.error DrawError.emptySource
    else
      let eligible := eligibleEntries records pids pnums
      if eligible.isEmpty then Except.error DrawError.noEligible
      else Except.ok
        (mkDrawResult (eligible.getD (k % eligible.length) [])
          records.length eligible.length)

/-- A worksheet: the populated grid, row 1 first. Cells are `Val`s. -/
structure Worksheet where
  rows : List (List Val)
deriving DecidableEq, Repr

/-- The header row written on lazy creation (sheets.py line 222). -/
def stdHeader : List Val :=
  [Val.str "timestamp", Val.str "id", Val.str "number",
   Val.str "name", Val.str "description"]

/-- Pad a data row with empty cells up to the header width, as
`get_all_records` does for short rows. -/
def padTo (n : Nat) (xs : List Val) : List Val :=
  xs ++ List.replicate (n - xs.length) (Val.str "")

/-- One record of `get_all_records`: header cells (as strings) zipped with
the data row, truncated or padded to the header width. -/
def mkRecord (hdr row : List Val) : Row :=
  List.zip (hdr.map pythonStr) (padTo hdr.length row)

/-- `worksheet.get_all_records()`: first row is the header, the rest map to
dicts; a header-only (or empty) sheet yields no records. -/
def recordsOf (ws : Worksheet) : List Row :=
  match ws.rows with
  | [] => []
  | hdr :: data => data.map (mkRecord hdr)

/-- Drop trailing empty cells, as `col_values` only reports up to the last
non-empty cell of the column. -/
def dropTrailingEmpty (xs : List Val) : List Val :=
  (xs.reverse.dropWhile (fun v => v == Val.str "")).reverse

/-- `worksheet.col_values(1)` (sheets.py line 241): column A up to its last
non-empty cell. -/
def colAValues (ws : Worksheet) : List Val :=
  dropTrailingEmpty (ws.rows.map (fun r => r.headD (Val.str "")))

/-- The `next_row` computation of sheets.py lines 242-248. -/
def nextRowIndex (colA : List Val) : Nat :=
  let n := colA.length + 1
  if n == 2 && !colA.isEmpty &&
      ["time", "timestamp"].contains (pyLower (pythonStr (colA.headD (Val.str "")))) then 2
  else if n < 2 then 2
  else n

/-- Overwrite the leading cells of a row with new values (the `A:E` range
update touches columns 1-5 only). -/
def writeCells (old new : List Val) : List Val :=
  new ++ old.drop new.length

/-- `worksheet.update(f'A{n}:E{n}', [row])` (sheets.py line 263): write the
row's cells at grid row `n`, extending the populated grid if needed. -/
def updateRange (ws : Worksheet) (n : Nat) (rowData : List Val) : Worksheet :=
  let padded := ws.rows ++ List.replicate (n - ws.rows.length) ([] : List Val)
  ⟨padded.set (n - 1) (writeCells (padded.getD (n - 1) []) rowData)⟩

/-- A spreadsheet: named worksheets. -/
structure Spreadsheet where
  sheets : List (String × Worksheet)
deriving DecidableEq, Repr

/-- `spreadsheet.worksheet(name)`; `Option.none` models the `WorksheetNotFound`
exception. -/
def lookupSheet : List (String × Worksheet) → String → Option Worksheet
  | [], _ => Option.none
  | (k, w) :: rest, name => if k == name then some w else lookupSheet rest name

/-- Find a worksheet by name. -/
def findSheet (sp : Spreadsheet) (name : String) : Option Worksheet :=
  lookupSheet sp.sheets name

/-- `spreadsheet.add_worksheet(...)` followed by `append_row(headers)`
(sheets.py lines 220-222): a fresh sheet holding only the header row. -/
def addSheetWithHeader (sp : Spreadsheet) (name : String) : Spreadsheet × Worksheet :=
  let ws : Worksheet := ⟨[stdHeader]⟩
  (⟨sp.sheets ++ [(name, ws)]⟩, ws)

/-- Store back the mutated worksheet (gspread worksheets are live references;
the explicit-state model writes the update into the spreadsheet). -/
def setSheet (sp : Spreadsheet) (name : String) (ws : Worksheet) : Spreadsheet :=
  ⟨sp.sheets.map (fun p => if p.1 == name then (p.1, ws) else p)⟩

/-- `existing_winners[-50:]` (sheets.py line 230): the last 50 records. -/
def dupWindow (existing : List Row) : List Row :=
  existing.drop (existing.length - 50)

/-- The duplicate test of sheets.py lines 231-235: id matches with both sides
non-empty, or number matches with both sides non-empty. -/
def dupMatch (eid enums : String) (w : Row) : Bool :=
  let wid := normStr (getWithDefault w "id" (Val.str ""))
  let wnum := normStr (getWithDefault w "number" (Val.str ""))
  (eid != "" && wid != "" && eid == wid) || (enums != "" && wnum != "" && enums == wnum)

/-- `save_winner` (sheets.py lines 185-267). `clientInit` models `self.client`
being set (if not, persistence is skipped and `False` returned, line 205);
`storeFail` models any exception raised inside the try block (store
unreachable, schema mismatch, I/O error), which is caught and reported as
`False` (lines 265-267). `winnersName` is the resolved target sheet name and
`timestamp` the formatted Asia/Kuala_Lumpur wall-clock string. Returns the
Python return value paired with the resulting store state. -/
def saveWinner (clientInit storeFail : Bool) (sp : Spreadsheet) (entry : Row)
    (winnersName : String) (timestamp : String) : Bool × Spreadsheet :=
  if !clientInit then (false, sp)
  else if storeFail then (false, sp)
  else
    let found := findSheet sp winnersName
    let sp1 := match found with
      | some _ => sp
      | Option.none => (addSheetWithHeader sp winnersName).1
    let ws := match found with
      | some w => w
      | Option.none => (addSheetWithHeader sp winnersName).2
    let eid := normStr (getWithDefault entry "id" (Val.str ""))
    let enums := normStr (getWithDefault entry "number" (Val.str ""))
    let existing := recordsOf ws
    if (dupWindow existing).any (dupMatch eid enums) then (true, sp1)
    else
      let n := nextRowIndex (colAValues ws)
      let rowData : List Val :=
        [Val.str timestamp,
         getWithDefault entry "id" (Val.str ""),
         getWithDefault entry "number" (Val.str ""),
         getWithDefault entry "name" (Val.str ""),
         getWithDefault entry "description" (Val.str "")]
      (true, setSheet sp1 winnersName (updateRange ws n rowData))

/-- The body dict of a successful `/luckydex` draw (app.py lines 109-118). -/
def luckyOkBody (entry : Row) (saved : Bool) : Row :=
  [("success", Val.bool true),
   ("id", getWithDefault entry "id" (Val.str "")),
   ("number", getWithDefault entry "number" (Val.str "")),
   ("name", getWithDefault entry "name" (Val.str "")),
   ("description", getWithDefault entry "description" (Val.str "")),
   ("total_entries", getWithDefault entry "total_entries" (Val.int 0)),
   ("mock_data", getWithDefault entry "_mock_data" (Val.bool false)),
   ("winner_saved", Val.bool saved)]

/-- The body dict of a failed `/luckydex` draw (app.py lines 121-127): every
`ValueError` from the draw path maps to status 409 with the exception text in
`error`. -/
def luckyErrBody (e : DrawError) : Row :=
  [("success", Val.bool false),
   ("error", Val.str (errorMessage e)),
   ("message", Val.str "No eligible entries remaining")]

/-- The `/luckydex` handler (app.py lines 69-145) over the same oracles as
`getUniqueRandomEntry` and `saveWinner`: draw, then best-effort persist; the
result is (status code, body dict) and the resulting store state. -/
def luckydex (clientInit readOk storeFail : Bool) (sp : Spreadsheet)
    (storedWinners records : List Row) (excludeIds excludeNumbers : List String)
    (k : Nat) (timestamp winnersName : String) :
    (Nat × Row) × Spreadsheet :=
  match getUniqueRandomEntry clientInit readOk storedWinners records
      excludeIds excludeNumbers k with
  | Except.ok entry =>
    let out := saveWinner clientInit storeFail sp entry winnersName timestamp
    ((200, luckyOkBody entry out.1), out.2)
  | Except.error e => ((409, luckyErrBody e), sp)

/-! ## Helper lemmas -/

theorem rowGet_cons_eq (k : String) (v : Val) (r : Row) :
    rowGet ((k, v) :: r) k = some v := by
  simp [rowGet, List.find?]

theorem rowGet_cons_ne (k q : String) (h : q ≠ k) (v : Val) (r : Row) :
    rowGet ((q, v) :: r) k = rowGet r k := by
  have hb : (q == k) = false := by simpa using h
  simp [rowGet, List.find?, hb]

/-- Unfolding of the draw on an initialized client. -/
theorem getUniqueRandomEntry_real (readOk : Bool) (sw records : List Row)
    (ids nums : List String) (k : Nat) :
    getUniqueRandomEntry true readOk sw records ids nums k =
      (if records.isEmpty then Except.error DrawError.emptySource
       else if (eligibleEntries records (priorIds (getWinners readOk sw) ids)
           (priorNumbers (getWinners readOk sw) nums)).isEmpty then
         Except.error DrawError.noEligible
       else Except.ok (mkDrawResult
         ((eligibleEntries records (priorIds (getWinners readOk sw) ids)
             (priorNumbers (getWinners readOk sw) nums)).getD
           (k % (eligibleEntries records (priorIds (getWinners readOk sw) ids)
             (priorNumbers (getWinners readOk sw) nums)).length) [])
         records.length
         (eligibleEntries records (priorIds (getWinners readOk sw) ids)
           (priorNumbers (getWinners readOk sw) nums)).length)) := rfl

theorem normStr_str_empty : normStr (Val.str "") = "" := by decide

/-- When the result-field extraction yields a value that is neither `None` nor
normalizes to the empty string, the filter's candidate extraction agrees and
produced the same normalized string. -/
theorem normCand_of_candValD (r : Row) (lo hi : String)
    (h1 : candValD r lo hi ≠ Val.none)
    (h2 : normStr (candValD r lo hi) ≠ "") :
    normCand r lo hi = some (normStr (candValD r lo hi)) := by
  cases hlo : rowGet r lo with
  | some v =>
    have hc : candValD r lo hi = v := by simp [candValD, hlo]
    have hcv : candVal r lo hi = v := by simp [candVal, hlo]
    rw [hc] at h1 h2 ⊢
    have hv2 : v ≠ Val.str "" := fun hv => h2 (hv ▸ normStr_str_empty)
    simp [normCand, hcv, valIsRealValue, bne_iff_ne, h1, hv2]
  | none =>
    cases hhi : rowGet r hi with
    | some w =>
      have hc : candValD r lo hi = w := by simp [candValD, getWithDefault, hlo, hhi]
      have hcv : candVal r lo hi = w := by simp [candVal, getWithDefault, hlo, hhi]
      rw [hc] at h1 h2 ⊢
      have hw2 : w ≠ Val.str "" := fun hv => h2 (hv ▸ normStr_str_empty)
      simp [normCand, hcv, valIsRealValue, bne_iff_ne, h1, hw2]
    | none =>
      have hc : candValD r lo hi = Val.str "" := by
        simp [candValD, getWithDefault, hlo, hhi]
      rw [hc] at h2
      exact absurd normStr_str_empty h2
/-- The specification's "normalized id/number of a returned entry":
string-coerce and trim; treated as "no value" (`Option.none`) when the stored
value is `None` or when the trimmed string is empty — the spec's
empty-or-absent exemption ("empty ... values never cause a match"). -/
def claimNormField (res : Row) (key : String) : Option String :=
  let v := getWithDefault res key Val.none
  if v = Val.none then Option.none
  else if normStr v = "" then Option.none
  else some (normStr v)

/-- Entries retained by the eligibility filter have both field checks false. -/
theorem eligible_chosen_not_won (records : List Row) (pids pnums : List String)
    (r : Row) (hmem : r ∈ eligibleEntries records pids pnums) :
    fieldWon pids r "id" "ID" = false ∧ fieldWon pnums r "number" "Number" = false := by
  have hp := List.of_mem_filter hmem
  simpa [eligiblePred, Bool.and_eq_true, Bool.not_eq_true'] using hp

/-- A candidate whose id already won is dropped by the filter. -/
theorem fieldWon_id_not_eligible (records : List Row) (pids pnums : List String)
    (r : Row) (hw : fieldWon pids r "id" "ID" = true) :
    r ∉ eligibleEntries records pids pnums := by
  intro hmem
  have hfalse := (eligible_chosen_not_won records pids pnums r hmem).1
  rw [hfalse] at hw
  cases hw

/-- A candidate whose number already won is dropped by the filter. -/
theorem fieldWon_number_not_eligible (records : List Row) (pids pnums : List String)
    (r : Row) (hw : fieldWon pnums r "number" "Number" = true) :
    r ∉ eligibleEntries records pids pnums := by
  intro hmem
  have hfalse := (eligible_chosen_not_won records pids pnums r hmem).2
  rw [hfalse] at hw
  cases hw

/-- An absent or empty candidate field never triggers an exclusion match. -/
theorem fieldWon_empty_false (prior : List String) (r : Row) (lo hi : String)
    (hc : candVal r lo hi = Val.none ∨ candVal r lo hi = Val.str "") :
    fieldWon prior r lo hi = false := by
  rcases hc with h | h <;> simp [fieldWon, normCand, h, valIsRealValue]

/-- Core step for C1: a chosen entry whose field check came back false cannot
have its (non-empty, non-None) normalization inside the prior set. -/
theorem contains_false_of_fieldWon_false (prior : List String) (chosen : Row)
    (lo hi : String) (hfw : fieldWon prior chosen lo hi = false) (s : String)
    (hval : normStr (candValD chosen lo hi) = s)
    (h1 : candValD chosen lo hi ≠ Val.none)
    (h2 : normStr (candValD chosen lo hi) ≠ "") :
    prior.contains s = false := by
  have hnc := normCand_of_candValD chosen lo hi h1 h2
  unfold fieldWon at hfw
  rw [hnc] at hfw
  simpa [hval] using hfw

/-! ## Persistence helper lemmas -/

theorem lookupSheet_map_set_of_none (l : List (String × Worksheet)) (name : String)
    (w : Worksheet) (h : lookupSheet l name = Option.none) :
    l.map (fun p => if p.1 == name then (p.1, w) else p) = l := by
  induction l with
  | nil => rfl
  | cons p rest ih =>
    by_cases hk : (p.1 == name) = true
    · simp [lookupSheet, hk] at h
    · have hk' : (p.1 == name) = false := by simpa using hk
      simp only [lookupSheet, hk', Bool.false_eq_true, if_false] at h
      simp only [List.map_cons]
      rw [if_neg hk, ih h]

theorem lookupSheet_append_of_none (l1 l2 : List (String × Worksheet)) (name : String)
    (h : lookupSheet l1 name = Option.none) :
    lookupSheet (l1 ++ l2) name = lookupSheet l2 name := by
  induction l1 with
  | nil => rfl
  | cons p rest ih =>
    by_cases hk : (p.1 == name) = true
    · simp [lookupSheet, hk] at h
    · have hk' : (p.1 == name) = false := by simpa using hk
      simp only [lookupSheet, hk', Bool.false_eq_true, if_false] at h
      simp only [List.cons_append, lookupSheet, hk', Bool.false_eq_true, if_false]
      exact ih h

theorem lookupSheet_append_self (l : List (String × Worksheet)) (name : String)
    (w : Worksheet) (h : lookupSheet l name = Option.none) :
    lookupSheet (l ++ [(name, w)]) name = some w := by
  rw [lookupSheet_append_of_none l _ name h]
  simp [lookupSheet]

theorem lookupSheet_map_set_found (l : List (String × Worksheet)) (name : String)
    (w v : Worksheet) (h : lookupSheet l name = some v) :
    lookupSheet (l.map (fun p => if p.1 == name then (p.1, w) else p)) name = some w := by
  induction l with
  | nil => cases h
  | cons p rest ih =>
    by_cases hk : (p.1 == name) = true
    · simp only [List.map_cons]
      rw [if_pos hk]
      simp [lookupSheet, hk]
    · have hk' : (p.1 == name) = false := by simpa using hk
      simp only [lookupSheet, hk', Bool.false_eq_true, if_false] at h
      simp only [List.map_cons]
      rw [if_neg hk]
      simp only [lookupSheet, hk', Bool.false_eq_true, if_false]
      exact ih h

theorem findSheet_setSheet_found (sp : Spreadsheet) (name : String)
    (ws w1 : Worksheet) (h : findSheet sp name = some ws) :
    findSheet (setSheet sp name w1) name = some w1 :=
  lookupSheet_map_set_found sp.sheets name w1 ws h

theorem setSheet_append_fresh (l : List (String × Worksheet)) (name : String)
    (w0 w1 : Worksheet) (h : lookupSheet l name = Option.none) :
    setSheet ⟨l ++ [(name, w0)]⟩ name w1 = ⟨l ++ [(name, w1)]⟩ := by
  unfold setSheet
  congr 1
  rw [List.map_append, lookupSheet_map_set_of_none l name w1 h]
  simp

theorem dropTrailingEmpty_eq_self (xs : List Val)
    (h : ∀ v ∈ xs, v ≠ Val.str "") : dropTrailingEmpty xs = xs := by
  unfold dropTrailingEmpty
  cases hr : xs.reverse with
  | nil =>
    have : xs = [] := by simpa [List.reverse_eq_nil_iff] using hr
    simp [this]
  | cons y ys =>
    have hy : y ∈ xs := by
      rw [← List.mem_reverse, hr]
      exact List.mem_cons_self _ _
    have hb : (y == Val.str "") = false := by simpa using h y hy
    rw [List.dropWhile_cons_of_neg (by simp [hb]), ← hr, List.reverse_reverse]

theorem set_length_concat (l : List (List Val)) (a b : List Val) :
    (l ++ [a]).set l.length b = l ++ [b] := by
  induction l with
  | nil => rfl
  | cons x xs ih => simp [List.set, ih]

theorem getD_length_concat (l : List (List Val)) (a : List Val) :
    (l ++ [a]).getD l.length [] = a := by
  induction l with
  | nil => rfl
  | cons x xs ih => simp [ih]

theorem updateRange_appendRow (rows : List (List Val)) (rowData : List Val) :
    updateRange ⟨rows⟩ (rows.length + 1) rowData = ⟨rows ++ [rowData]⟩ := by
  unfold updateRange writeCells
  have h1 : rows.length + 1 - rows.length = 1 := by omega
  have h2 : rows.length + 1 - 1 = rows.length := by omega
  simp only [h1, h2]
  have h3 : List.replicate 1 ([] : List Val) = [[]] := rfl
  rw [h3, getD_length_concat, List.drop_nil, List.append_nil, set_length_concat]

theorem nextRowIndex_of_ne_nil (colA : List Val) (h : colA ≠ []) :
    nextRowIndex colA = colA.length + 1 := by
  unfold nextRowIndex
  have hlen : 0 < colA.length := List.length_pos.2 h
  by_cases hb : (colA.length + 1 == 2 && !colA.isEmpty &&
      ["time", "timestamp"].contains
        (pyLower (pythonStr (colA.headD (Val.str ""))))) = true
  · rw [if_pos hb]
    simp only [Bool.and_eq_true, beq_iff_eq] at hb
    obtain ⟨⟨h2, -⟩, -⟩ := hb
    omega
  · rw [if_neg hb, if_neg (by omega)]

theorem recordsOf_append (hdr : List Val) (data : List (List Val)) (row : List Val) :
    recordsOf ⟨(hdr :: data) ++ [row]⟩ =
      recordsOf ⟨hdr :: data⟩ ++ [mkRecord hdr row] := by
  simp [recordsOf]

theorem mem_drop_concat (l : List Row) (x : Row) (n : Nat) (h : n ≤ l.length) :
    x ∈ (l ++ [x]).drop n := by
  induction l generalizing n with
  | nil =>
    simp only [List.length_nil, Nat.le_zero] at h
    subst h
    simp
  | cons a t ih =>
    cases n with
    | zero => simp
    | succ m =>
      simp only [List.cons_append, List.drop_succ_cons]
      exact ih m (by simpa using h)

theorem mem_dupWindow_last (l : List Row) (x : Row) :
    x ∈ dupWindow (l ++ [x]) := by
  unfold dupWindow
  exact mem_drop_concat l x _
    (by simp only [List.length_append, List.length_singleton]; omega)

/-- The freshly appended winners row is re-read as a record whose normalized
id and number equal the entry's, so it triggers the duplicate guard whenever
one of them is non-empty. -/
theorem dupMatch_self_record (a b c d : Val) (ts : String)
    (h : normStr a ≠ "" ∨ normStr b ≠ "") :
    dupMatch (normStr a) (normStr b)
      (mkRecord stdHeader [Val.str ts, a, b, c, d]) = true := by
  have hrec : dupMatch (normStr a) (normStr b)
      (mkRecord stdHeader [Val.str ts, a, b, c, d]) =
      ((normStr a != "" && normStr a != "" && normStr a == normStr a) ||
       (normStr b != "" && normStr b != "" && normStr b == normStr b)) := rfl
  rw [hrec]
  rcases h with h | h <;> simp [bne_iff_ne, h]

/-- Unfolding of `save_winner` when the winners sheet exists. -/
theorem saveWinner_found (sp : Spreadsheet) (entry : Row) (name ts : String)
    (ws : Worksheet) (h : findSheet sp name = some ws) :
    saveWinner true false sp entry name ts =
      (if (dupWindow (recordsOf ws)).any
          (dupMatch (normStr (getWithDefault entry "id" (Val.str "")))
            (normStr (getWithDefault entry "number" (Val.str "")))) then (true, sp)
       else (true, setSheet sp name
         (updateRange ws (nextRowIndex (colAValues ws))
           [Val.str ts, getWithDefault entry "id" (Val.str ""),
            getWithDefault entry "number" (Val.str ""),
            getWithDefault entry "name" (Val.str ""),
            getWithDefault entry "description" (Val.str "")]))) := by
  simp [saveWinner, h]

/-- Unfolding of `save_winner` when the winners sheet is missing: it is
created with the header row and, the duplicate window being empty, the data
row is appended. -/
theorem saveWinner_notfound (sp : Spreadsheet) (entry : Row) (name ts : String)
    (h : findSheet sp name = Option.none) :
    saveWinner true false sp entry name ts =
      (true, setSheet ⟨sp.sheets ++ [(name, ⟨[stdHeader]⟩)]⟩ name
        ⟨[stdHeader,
          [Val.str ts, getWithDefault entry "id" (Val.str ""),
           getWithDefault entry "number" (Val.str ""),
           getWithDefault entry "name" (Val.str ""),
           getWithDefault entry "description" (Val.str "")]]⟩) := by
  have hupd := updateRange_appendRow [stdHeader]
    [Val.str ts, getWithDefault entry "id" (Val.str ""),
     getWithDefault entry "number" (Val.str ""),
     getWithDefault entry "name" (Val.str ""),
     getWithDefault entry "description" (Val.str "")]
  have hnext : nextRowIndex (colAValues ⟨[stdHeader]⟩) = 2 := by decide
  simp only [saveWinner, Bool.not_true, Bool.false_eq_true, if_false, h,
    addSheetWithHeader, hnext]
  rw [show (2 : Nat) = List.length [stdHeader] + 1 from rfl, hupd]
  rfl

/-! ## Claim theorems -/

/-- C8: for every input pool and every pair of exclusion sets, the eligible
subset computed by the eligibility filter is a subsequence of the input pool:
all retained entries appear in the same relative order as in the input. -/
theorem claim_C8_order_preservation (records : List Row) (pids pnums : List String) :
    (eligibleEntries records pids pnums).Sublist records :=
  List.filter_sublist records

/-- C3: a draw over an empty candidate pool fails with the "Spreadsheet is
empty" error (`EmptySource`), which is a distinct error kind, with a distinct
message, from `NoEligibleEntries`; the handler surfaces that message in the
`error` field of the 409 response, so a caller can tell the two apart. -/
theorem claim_C3_empty_pool_distinct_error (readOk : Bool) (sw : List Row)
    (ids nums : List String) (k : Nat) (sp : Spreadsheet) (ts name : String) :
    getUniqueRandomEntry true readOk sw [] ids nums k =
      Except.error DrawError.emptySource ∧
    DrawError.emptySource ≠ DrawError.noEligible ∧
    errorMessage DrawError.emptySource ≠ errorMessage DrawError.noEligible ∧
    (luckydex true readOk false sp sw [] ids nums k ts name).1 =
      (409, luckyErrBody DrawError.emptySource) := by
  have h1 : getUniqueRandomEntry true readOk sw [] ids nums k =
      Except.error DrawError.emptySource := by
    rw [getUniqueRandomEntry_real]; rfl
  exact ⟨h1, by decide, by decide, by rw [luckydex, h1]⟩

/-- C10: with an uninitialized backing-store client the draw returns one of
the five fixed mock entries, carrying `_mock_data = True`, without consulting
the winners log or the session exclusions (the result does not depend on
them); in particular an id already excluded by the session can be returned
again. -/
theorem claim_C10_mock_fallback (readOk : Bool) (sw records : List Row)
    (ids nums : List String) (k : Nat) :
    getUniqueRandomEntry false readOk sw records ids nums k =
      Except.ok (mockEntry k) ∧
    rowGet (mockEntry k) "_mock_data" = some (Val.bool true) ∧
    mockEntry k ∈ (List.range 5).map mockEntry ∧
    getUniqueRandomEntry false true [] [] ["1"] ["777"] 0 = Except.ok (mockEntry 0) ∧
    normStr (getWithDefault (mockEntry 0) "id" (Val.str "")) = "1" ∧
    (priorIds (getWinners true []) ["1"]).contains
      (normStr (getWithDefault (mockEntry 0) "id" (Val.str ""))) = true := by
  have h5 : k % 5 = 0 ∨ k % 5 = 1 ∨ k % 5 = 2 ∨ k % 5 = 3 ∨ k % 5 = 4 := by omega
  refine ⟨rfl, ?_, ?_, rfl, by decide, by decide⟩
  · rcases h5 with h | h | h | h | h <;> simp only [mockEntry, h] <;> decide
  · refine List.mem_map.2 ⟨k % 5, List.mem_range.2 (by omega), ?_⟩
    simp only [mockEntry]
    rw [show k % 5 % 5 = k % 5 by omega]

/-- C1: a returned entry's normalized id never appears in the combined prior
id set (log winners plus session exclusions) when it is a real value, and
likewise for its normalized number; matching on either field alone
disqualifies a candidate, and empty or absent values never cause a match. -/
theorem claim_C1_no_repeat (readOk : Bool) (sw records : List Row)
    (ids nums : List String) (k : Nat) (res : Row)
    (h : getUniqueRandomEntry true readOk sw records ids nums k = Except.ok res) :
    (∀ s, claimNormField res "id" = some s →
      (priorIds (getWinners readOk sw) ids).contains s = false) ∧
    (∀ s, claimNormField res "number" = some s →
      (priorNumbers (getWinners readOk sw) nums).contains s = false) ∧
    (∀ r, fieldWon (priorIds (getWinners readOk sw) ids) r "id" "ID" = true →
      r ∉ eligibleEntries records (priorIds (getWinners readOk sw) ids)
        (priorNumbers (getWinners readOk sw) nums)) ∧
    (∀ r, fieldWon (priorNumbers (getWinners readOk sw) nums) r "number" "Number" = true →
      r ∉ eligibleEntries records (priorIds (getWinners readOk sw) ids)
        (priorNumbers (getWinners readOk sw) nums)) ∧
    (∀ r, candVal r "id" "ID" = Val.none ∨ candVal r "id" "ID" = Val.str "" →
      fieldWon (priorIds (getWinners readOk sw) ids) r "id" "ID" = false) ∧
    (∀ r, candVal r "number" "Number" = Val.none ∨ candVal r "number" "Number" = Val.str "" →
      fieldWon (priorNumbers (getWinners readOk sw) nums) r "number" "Number" = false) := by
  rw [getUniqueRandomEntry_real] at h
  split_ifs at h with hrec hemp
  injection h with hres
  subst hres
  have hne : eligibleEntries records (priorIds (getWinners readOk sw) ids)
      (priorNumbers (getWinners readOk sw) nums) ≠ [] := by
    simpa [List.isEmpty_iff] using hemp
  have hlen : 0 < (eligibleEntries records (priorIds (getWinners readOk sw) ids)
      (priorNumbers (getWinners readOk sw) nums)).length := List.length_pos.2 hne
  have hk : k % (eligibleEntries records (priorIds (getWinners readOk sw) ids)
      (priorNumbers (getWinners readOk sw) nums)).length <
      (eligibleEntries records (priorIds (getWinners readOk sw) ids)
        (priorNumbers (getWinners readOk sw) nums)).length := Nat.mod_lt _ hlen
  have hmem : (eligibleEntries records (priorIds (getWinners readOk sw) ids)
      (priorNumbers (getWinners readOk sw) nums)).getD
        (k % (eligibleEntries records (priorIds (getWinners readOk sw) ids)
          (priorNumbers (getWinners readOk sw) nums)).length) [] ∈
      eligibleEntries records (priorIds (getWinners readOk sw) ids)
        (priorNumbers (getWinners readOk sw) nums) := by
    rw [List.getD_eq_getElem _ _ hk]
    exact List.getElem_mem hk
  obtain ⟨hfid, hfnum⟩ := eligible_chosen_not_won _ _ _ _ hmem
  refine ⟨?_, ?_,
    fun r hw => fieldWon_id_not_eligible _ _ _ r hw,
    fun r hw => fieldWon_number_not_eligible _ _ _ r hw,
    fun r hc => fieldWon_empty_false _ r "id" "ID" hc,
    fun r hc => fieldWon_empty_false _ r "number" "Number" hc⟩
  · intro s hs
    have hkey : getWithDefault (mkDrawResult
        ((eligibleEntries records (priorIds (getWinners readOk sw) ids)
          (priorNumbers (getWinners readOk sw) nums)).getD
            (k % (eligibleEntries records (priorIds (getWinners readOk sw) ids)
              (priorNumbers (getWinners readOk sw) nums)).length) [])
        records.length
        (eligibleEntries records (priorIds (getWinners readOk sw) ids)
          (priorNumbers (getWinners readOk sw) nums)).length) "id" Val.none =
        candValD ((eligibleEntries records (priorIds (getWinners readOk sw) ids)
          (priorNumbers (getWinners readOk sw) nums)).getD
            (k % (eligibleEntries records (priorIds (getWinners readOk sw) ids)
              (priorNumbers (getWinners readOk sw) nums)).length) []) "id" "ID" := by
      simp [getWithDefault, mkDrawResult, rowGet_cons_eq]
    simp only [claimNormField] at hs
    rw [hkey] at hs
    split_ifs at hs with h1 h2
    injection hs with hs'
    exact contains_false_of_fieldWon_false _ _ _ _ hfid s hs' h1 h2
  · intro s hs
    have hkey : getWithDefault (mkDrawResult
        ((eligibleEntries records (priorIds (getWinners readOk sw) ids)
          (priorNumbers (getWinners readOk sw) nums)).getD
            (k % (eligibleEntries records (priorIds (getWinners readOk sw) ids)
              (priorNumbers (getWinners readOk sw) nums)).length) [])
        records.length
        (eligibleEntries records (priorIds (getWinners readOk sw) ids)
          (priorNumbers (getWinners readOk sw) nums)).length) "number" Val.none =
        candValD ((eligibleEntries records (priorIds (getWinners readOk sw) ids)
          (priorNumbers (getWinners readOk sw) nums)).getD
            (k % (eligibleEntries records (priorIds (getWinners readOk sw) ids)
              (priorNumbers (getWinners readOk sw) nums)).length) []) "number" "Number" := by
      simp [getWithDefault, mkDrawResult, rowGet_cons_eq,
        rowGet_cons_ne _ _ (by decide : "id" ≠ "number")]
    simp only [claimNormField] at hs
    rw [hkey] at hs
    split_ifs at hs with h1 h2
    injection hs with hs'
    exact contains_false_of_fieldWon_false _ _ _ _ hfnum s hs' h1 h2

/-- C1 witness: a concrete one-entry pool with a session-excluded id "9"
yields an entry, and the guarantees hold at that instance. -/
theorem claim_C1_witness :
    (∀ s, claimNormField [("id", Val.int 1), ("number", Val.int 7),
        ("name", Val.str ""), ("description", Val.str ""),
        ("total_entries", Val.int 1), ("eligible_entries", Val.int 1)] "id" = some s →
      (priorIds (getWinners true []) ["9"]).contains s = false) ∧
    (∀ s, claimNormField [("id", Val.int 1), ("number", Val.int 7),
        ("name", Val.str ""), ("description", Val.str ""),
        ("total_entries", Val.int 1), ("eligible_entries", Val.int 1)] "number" = some s →
      (priorNumbers (getWinners true []) []).contains s = false) ∧
    (∀ r, fieldWon (priorIds (getWinners true []) ["9"]) r "id" "ID" = true →
      r ∉ eligibleEntries [[("id", Val.int 1), ("number", Val.int 7)]]
        (priorIds (getWinners true []) ["9"]) (priorNumbers (getWinners true []) [])) ∧
    (∀ r, fieldWon (priorNumbers (getWinners true []) []) r "number" "Number" = true →
      r ∉ eligibleEntries [[("id", Val.int 1), ("number", Val.int 7)]]
        (priorIds (getWinners true []) ["9"]) (priorNumbers (getWinners true []) [])) ∧
    (∀ r, candVal r "id" "ID" = Val.none ∨ candVal r "id" "ID" = Val.str "" →
      fieldWon (priorIds (getWinners true []) ["9"]) r "id" "ID" = false) ∧
    (∀ r, candVal r "number" "Number" = Val.none ∨ candVal r "number" "Number" = Val.str "" →
      fieldWon (priorNumbers (getWinners true []) []) r "number" "Number" = false) :=
  claim_C1_no_repeat true [] [[("id", Val.int 1), ("number", Val.int 7)]] ["9"] [] 0
    [("id", Val.int 1), ("number", Val.int 7), ("name", Val.str ""),
     ("description", Val.str ""), ("total_entries", Val.int 1),
     ("eligible_entries", Val.int 1)] (by decide)

/-- C2: on a non-empty pool the draw fails with `NoEligibleEntries` exactly
when the eligibility filter over the combined exclusion sets leaves zero
entries (however exhaustion was reached); when at least one entry is
eligible it returns an entry and does not raise. -/
theorem claim_C2_exhaustion_iff (readOk : Bool) (sw records : List Row)
    (ids nums : List String) (k : Nat) (hne : records ≠ []) :
    (getUniqueRandomEntry true readOk sw records ids nums k =
        Except.error DrawError.noEligible ↔
      eligibleEntries records (priorIds (getWinners readOk sw) ids)
        (priorNumbers (getWinners readOk sw) nums) = []) ∧
    (eligibleEntries records (priorIds (getWinners readOk sw) ids)
        (priorNumbers (getWinners readOk sw) nums) ≠ [] →
      ∃ res, getUniqueRandomEntry true readOk sw records ids nums k =
        Except.ok res) := by
  have hrec : records.isEmpty = false := by simp [List.isEmpty_iff, hne]
  rw [getUniqueRandomEntry_real]
  by_cases he : eligibleEntries records (priorIds (getWinners readOk sw) ids)
      (priorNumbers (getWinners readOk sw) nums) = []
  · simp [hrec, he]
  · simp [hrec, List.isEmpty_iff, he]

/-- C2 witness: a single-entry pool with no exclusions is not exhausted. -/
theorem claim_C2_witness :
    ((getUniqueRandomEntry true true [] [[("id", Val.int 1)]] [] [] 0 =
        Except.error DrawError.noEligible ↔
      eligibleEntries [[("id", Val.int 1)]] (priorIds (getWinners true []) [])
        (priorNumbers (getWinners true []) []) = []) ∧
     (eligibleEntries [[("id", Val.int 1)]] (priorIds (getWinners true []) [])
        (priorNumbers (getWinners true []) []) ≠ [] →
      ∃ res, getUniqueRandomEntry true true [] [[("id", Val.int 1)]] [] [] 0 =
        Except.ok res)) :=
  claim_C2_exhaustion_iff true [] [[("id", Val.int 1)]] [] [] 0 (by decide)

/-- C6: `save_winner` never raises — with a missing client it returns false,
and with any failure inside its persistence path it returns false; the
surrounding draw request still returns the drawn record as a 200 success
response with `winner_saved = false`. -/
theorem claim_C6_persistence_failure_isolated (readOk : Bool) (sw records : List Row)
    (ids nums : List String) (k : Nat) (sp : Spreadsheet) (ts name : String) (entry : Row)
    (h : getUniqueRandomEntry true readOk sw records ids nums k = Except.ok entry) :
    (∀ (storeFail : Bool) (sp2 : Spreadsheet) (e2 : Row) (nm ts2 : String),
      (saveWinner false storeFail sp2 e2 nm ts2).1 = false) ∧
    (∀ (sp2 : Spreadsheet) (e2 : Row) (nm ts2 : String),
      (saveWinner true true sp2 e2 nm ts2).1 = false) ∧
    (luckydex true readOk true sp sw records ids nums k ts name).1.1 = 200 ∧
    rowGet (luckydex true readOk true sp sw records ids nums k ts name).1.2
      "success" = some (Val.bool true) ∧
    rowGet (luckydex true readOk true sp sw records ids nums k ts name).1.2
      "winner_saved" = some (Val.bool false) ∧
    rowGet (luckydex true readOk true sp sw records ids nums k ts name).1.2
      "id" = some (getWithDefault entry "id" (Val.str "")) := by
  have hl : luckydex true readOk true sp sw records ids nums k ts name =
      ((200, luckyOkBody entry false), sp) := by
    unfold luckydex
    rw [h]
    rfl
  refine ⟨fun _ _ _ _ _ => rfl, fun _ _ _ _ => rfl, ?_, ?_, ?_, ?_⟩ <;> rw [hl] <;> rfl

/-- C6 witness: a concrete successful draw whose persistence fails still
produces a 200 success body with `winner_saved = false`. -/
theorem claim_C6_witness :
    (∀ (storeFail : Bool) (sp2 : Spreadsheet) (e2 : Row) (nm ts2 : String),
      (saveWinner false storeFail sp2 e2 nm ts2).1 = false) ∧
    (∀ (sp2 : Spreadsheet) (e2 : Row) (nm ts2 : String),
      (saveWinner true true sp2 e2 nm ts2).1 = false) ∧
    (luckydex true true true ⟨[]⟩ [] [[("id", Val.int 1)]] [] [] 0 "t" "Winners").1.1
      = 200 ∧
    rowGet (luckydex true true true ⟨[]⟩ [] [[("id", Val.int 1)]] [] [] 0
      "t" "Winners").1.2 "success" = some (Val.bool true) ∧
    rowGet (luckydex true true true ⟨[]⟩ [] [[("id", Val.int 1)]] [] [] 0
      "t" "Winners").1.2 "winner_saved" = some (Val.bool false) ∧
    rowGet (luckydex true true true ⟨[]⟩ [] [[("id", Val.int 1)]] [] [] 0
      "t" "Winners").1.2 "id" =
      some (getWithDefault [("id", Val.int 1), ("number", Val.str ""),
        ("name", Val.str ""), ("description", Val.str ""),
        ("total_entries", Val.int 1), ("eligible_entries", Val.int 1)]
        "id" (Val.str "")) :=
  claim_C6_persistence_failure_isolated true [] [[("id", Val.int 1)]] [] [] 0
    ⟨[]⟩ "t" "Winners"
    [("id", Val.int 1), ("number", Val.str ""), ("name", Val.str ""),
     ("description", Val.str ""), ("total_entries", Val.int 1),
     ("eligible_entries", Val.int 1)] (by decide)

/-- C7 counterexample: the winners log holds a winner with id 1 / number 777
and the pool's only entry carries that same id and number. When the log read
fails the draw does NOT fail: it succeeds and returns that prior winner,
whereas the same draw with a readable log reports exhaustion. -/
theorem claim_C7_counterexample :
    (getUniqueRandomEntry true false
        [[("timestamp", Val.str "2024-01-01 10:00:00"), ("id", Val.int 1),
          ("number", Val.int 777)]]
        [[("id", Val.int 1), ("number", Val.int 777), ("name", Val.str "Lucky")]]
        [] [] 0).isOk = true ∧
    rowGet ((getUniqueRandomEntry true false
        [[("timestamp", Val.str "2024-01-01 10:00:00"), ("id", Val.int 1),
          ("number", Val.int 777)]]
        [[("id", Val.int 1), ("number", Val.int 777), ("name", Val.str "Lucky")]]
        [] [] 0).toOption.getD []) "id" = some (Val.int 1) ∧
    getUniqueRandomEntry true true
        [[("timestamp", Val.str "2024-01-01 10:00:00"), ("id", Val.int 1),
          ("number", Val.int 777)]]
        [[("id", Val.int 1), ("number", Val.int 777), ("name", Val.str "Lucky")]]
        [] [] 0 = Except.error DrawError.noEligible := by
  decide

/-- C7 amended: a failed winners-log read never fails the draw; `get_winners`
swallows the error and returns the empty list, so the draw behaves exactly as
if the log were empty (log-based exclusions silently dropped, session
exclusions still applied). -/
theorem claim_C7_amended_failed_read_is_empty_log (sw records : List Row)
    (ids nums : List String) (k : Nat) :
    getUniqueRandomEntry true false sw records ids nums k =
      getUniqueRandomEntry true true [] records ids nums k := rfl

/-- C9 counterexample: a row whose lowercase `id` key is present but empty
does NOT yield the capitalized `ID` key's non-empty value under the filter's
candidate extraction, and consequently the draw treats the entry as having no
id: excluding "X" does not exclude this row, and the returned id is the
empty string, not "X". -/
theorem claim_C9_counterexample :
    candVal [("id", Val.str ""), ("ID", Val.str "X"), ("number", Val.int 3)]
        "id" "ID" = Val.str "" ∧
    candVal [("id", Val.str ""), ("ID", Val.str "X"), ("number", Val.int 3)]
        "id" "ID" ≠ Val.str "X" ∧
    getUniqueRandomEntry true true []
        [[("id", Val.str ""), ("ID", Val.str "X"), ("number", Val.int 3)]]
        ["X"] [] 0 =
      Except.ok [("id", Val.str ""), ("number", Val.int 3), ("name", Val.str ""),
        ("description", Val.str ""), ("total_entries", Val.int 1),
        ("eligible_entries", Val.int 1)] := by
  decide

/-- C9 amended: the two extraction styles differ. The winners-log extraction
(`w.get('id') or w.get('ID')`) falls through to the capitalized key whenever
the lowercase value is falsy (absent, empty, zero); but the candidate-filter
and result extraction (`r.get('id', r.get('ID', ...))`) consults the
capitalized key only when the lowercase key is absent: a present-but-empty
lowercase value is returned as-is. -/
theorem claim_C9_amended_extraction_styles (r : Row) (lo hi : String) :
    (rowGet r lo = Option.none →
      candVal r lo hi = (rowGet r hi).getD Val.none ∧
      orGet r lo hi = (rowGet r hi).getD Val.none) ∧
    (∀ v, rowGet r lo = some v → candVal r lo hi = v) ∧
    (∀ v, rowGet r lo = some v → isTruthy v = true → orGet r lo hi = v) ∧
    (∀ v, rowGet r lo = some v → isTruthy v = false →
      orGet r lo hi = (rowGet r hi).getD Val.none) := by
  refine ⟨fun h => ⟨?_, ?_⟩, fun v h => ?_, fun v h ht => ?_, fun v h ht => ?_⟩
  · simp [candVal, getWithDefault, h]
  · simp [orGet, getWithDefault, h, isTruthy]
  · simp [candVal, h]
  · simp [orGet, getWithDefault, h, ht]
  · simp [orGet, getWithDefault, h, ht]

/-- C9 amended, witness: on a row with a present-but-empty lowercase key the
candidate extraction returns that empty value. -/
theorem claim_C9_amended_witness :
    candVal [("id", Val.str ""), ("ID", Val.str "X")] "id" "ID" = Val.str "" :=
  (claim_C9_amended_extraction_styles
    [("id", Val.str ""), ("ID", Val.str "X")] "id" "ID").2.1 (Val.str "") (by decide)

/-- C4 counterexample: the duplicate guard only fires when both compared
values are non-empty, so calling `save_winner` twice in immediate succession
with an identical entry whose id and number are both empty appends TWO data
rows — the state after the second call differs from the state after the
first, and the log ends with two data rows, not one. -/
theorem claim_C4_counterexample :
    findSheet (saveWinner true false
        (saveWinner true false ⟨[]⟩
          [("id", Val.str ""), ("number", Val.str ""), ("name", Val.str "n"),
           ("description", Val.str "d")] "Winners" "t1").2
        [("id", Val.str ""), ("number", Val.str ""), ("name", Val.str "n"),
         ("description", Val.str "d")] "Winners" "t2").2 "Winners" =
      some ⟨[stdHeader,
        [Val.str "t1", Val.str "", Val.str "", Val.str "n", Val.str "d"],
        [Val.str "t2", Val.str "", Val.str "", Val.str "n", Val.str "d"]]⟩ ∧
    (saveWinner true false
        (saveWinner true false ⟨[]⟩
          [("id", Val.str ""), ("number", Val.str ""), ("name", Val.str "n"),
           ("description", Val.str "d")] "Winners" "t1").2
        [("id", Val.str ""), ("number", Val.str ""), ("name", Val.str "n"),
         ("description", Val.str "d")] "Winners" "t2").2 ≠
      (saveWinner true false ⟨[]⟩
        [("id", Val.str ""), ("number", Val.str ""), ("name", Val.str "n"),
         ("description", Val.str "d")] "Winners" "t1").2 := by
  decide

/-- C4 amended: provided the entry's normalized id or normalized number is
non-empty (the guard compares only non-empty values on both sides) and the
winners sheet, when it already exists, carries the standard header with no
data row whose timestamp column is empty, the second of two identical
`save_winner` calls is a pure no-op returning success — so the pair appends
at most one data row; and the guard scans exactly a suffix of the records of
at most 50 rows. -/
theorem claim_C4_amended_idempotent (sp : Spreadsheet) (entry : Row)
    (name ts1 ts2 : String)
    (hsheet : ∀ ws, findSheet sp name = some ws →
      ∃ rest, ws.rows = stdHeader :: rest ∧
        ∀ row ∈ rest, row.headD (Val.str "") ≠ Val.str "")
    (hid : normStr (getWithDefault entry "id" (Val.str "")) ≠ "" ∨
           normStr (getWithDefault entry "number" (Val.str "")) ≠ "") :
    saveWinner true false (saveWinner true false sp entry name ts1).2 entry name ts2 =
      (true, (saveWinner true false sp entry name ts1).2) ∧
    (∀ existing : List Row, dupWindow existing <:+ existing ∧
      (dupWindow existing).length ≤ 50) := by
  refine ⟨?_, fun existing =>
    ⟨List.drop_suffix _ _,
     by simp only [dupWindow, List.length_drop]; omega⟩⟩
  cases hfs : findSheet sp name with
  | none =>
    have h1 := saveWinner_notfound sp entry name ts1 hfs
    rw [setSheet_append_fresh sp.sheets name _ _ hfs] at h1
    rw [h1]
    have hfs2 : findSheet
        (⟨sp.sheets ++ [(name, ⟨[stdHeader,
          [Val.str ts1, getWithDefault entry "id" (Val.str ""),
           getWithDefault entry "number" (Val.str ""),
           getWithDefault entry "name" (Val.str ""),
           getWithDefault entry "description" (Val.str "")]]⟩)]⟩ : Spreadsheet)
        name = some ⟨[stdHeader,
          [Val.str ts1, getWithDefault entry "id" (Val.str ""),
           getWithDefault entry "number" (Val.str ""),
           getWithDefault entry "name" (Val.str ""),
           getWithDefault entry "description" (Val.str "")]]⟩ :=
      lookupSheet_append_self sp.sheets name _ hfs
    rw [saveWinner_found _ entry name ts2 _ hfs2]
    have hdup : (dupWindow (recordsOf (⟨[stdHeader,
        [Val.str ts1, getWithDefault entry "id" (Val.str ""),
         getWithDefault entry "number" (Val.str ""),
         getWithDefault entry "name" (Val.str ""),
         getWithDefault entry "description" (Val.str "")]]⟩ : Worksheet))).any
        (dupMatch (normStr (getWithDefault entry "id" (Val.str "")))
          (normStr (getWithDefault entry "number" (Val.str "")))) = true := by
      have hrec : recordsOf (⟨[stdHeader,
          [Val.str ts1, getWithDefault entry "id" (Val.str ""),
           getWithDefault entry "number" (Val.str ""),
           getWithDefault entry "name" (Val.str ""),
           getWithDefault entry "description" (Val.str "")]]⟩ : Worksheet) =
          [mkRecord stdHeader
            [Val.str ts1, getWithDefault entry "id" (Val.str ""),
             getWithDefault entry "number" (Val.str ""),
             getWithDefault entry "name" (Val.str ""),
             getWithDefault entry "description" (Val.str "")]] := rfl
      rw [hrec]
      simp [dupWindow, dupMatch_self_record _ _ _ _ ts1 hid]
    rw [if_pos hdup]
  | some ws =>
    obtain ⟨rest, hws, hheads⟩ := hsheet ws hfs
    have h1 := saveWinner_found sp entry name ts1 ws hfs
    by_cases hdup1 : (dupWindow (recordsOf ws)).any
        (dupMatch (normStr (getWithDefault entry "id" (Val.str "")))
          (normStr (getWithDefault entry "number" (Val.str "")))) = true
    · rw [if_pos hdup1] at h1
      rw [h1]
      rw [saveWinner_found sp entry name ts2 ws hfs, if_pos hdup1]
    · rw [if_neg hdup1] at h1
      have hcolA : colAValues ws =
          (stdHeader :: rest).map (fun r => r.headD (Val.str "")) := by
        unfold colAValues
        rw [hws]
        apply dropTrailingEmpty_eq_self
        intro v hv
        rcases List.mem_map.mp hv with ⟨row, hrow, hveq⟩
        rcases List.mem_cons.mp hrow with hcase | hcase
        · rw [← hveq, hcase]; decide
        · rw [← hveq]; exact hheads row hcase
      have hn : nextRowIndex (colAValues ws) = ws.rows.length + 1 := by
        rw [nextRowIndex_of_ne_nil _ (by rw [hcolA]; simp), hcolA, hws]
        simp
      rw [hn] at h1
      have hupd := updateRange_appendRow ws.rows
        [Val.str ts1, getWithDefault entry "id" (Val.str ""),
         getWithDefault entry "number" (Val.str ""),
         getWithDefault entry "name" (Val.str ""),
         getWithDefault entry "description" (Val.str "")]
      rw [hupd] at h1
      rw [h1]
      have hfs2 : findSheet (setSheet sp name ⟨ws.rows ++
          [[Val.str ts1, getWithDefault entry "id" (Val.str ""),
            getWithDefault entry "number" (Val.str ""),
            getWithDefault entry "name" (Val.str ""),
            getWithDefault entry "description" (Val.str "")]]⟩) name =
          some ⟨ws.rows ++
          [[Val.str ts1, getWithDefault entry "id" (Val.str ""),
            getWithDefault entry "number" (Val.str ""),
            getWithDefault entry "name" (Val.str ""),
            getWithDefault entry "description" (Val.str "")]]⟩ :=
        findSheet_setSheet_found sp name ws _ hfs
      rw [saveWinner_found _ entry name ts2 _ hfs2]
      have hrecords : recordsOf (⟨ws.rows ++
          [[Val.str ts1, getWithDefault entry "id" (Val.str ""),
            getWithDefault entry "number" (Val.str ""),
            getWithDefault entry "name" (Val.str ""),
            getWithDefault entry "description" (Val.str "")]]⟩ : Worksheet) =
          rest.map (mkRecord stdHeader) ++
          [mkRecord stdHeader
            [Val.str ts1, getWithDefault entry "id" (Val.str ""),
             getWithDefault entry "number" (Val.str ""),
             getWithDefault entry "name" (Val.str ""),
             getWithDefault entry "description" (Val.str "")]] := by
        rw [hws]
        simp [recordsOf]
      have hdup2 : (dupWindow (recordsOf (⟨ws.rows ++
          [[Val.str ts1, getWithDefault entry "id" (Val.str ""),
            getWithDefault entry "number" (Val.str ""),
            getWithDefault entry "name" (Val.str ""),
            getWithDefault entry "description" (Val.str "")]]⟩ : Worksheet))).any
          (dupMatch (normStr (getWithDefault entry "id" (Val.str "")))
            (normStr (getWithDefault entry "number" (Val.str "")))) = true := by
        rw [hrecords]
        refine List.any_eq_true.2 ⟨mkRecord stdHeader
          [Val.str ts1, getWithDefault entry "id" (Val.str ""),
           getWithDefault entry "number" (Val.str ""),
           getWithDefault entry "name" (Val.str ""),
           getWithDefault entry "description" (Val.str "")],
          mem_dupWindow_last _ _, dupMatch_self_record _ _ _ _ ts1 hid⟩
      rw [if_pos hdup2]

/-- C4 amended, witness: two identical saves of a concrete non-empty entry
into an empty store; the second is a no-op success. -/
theorem claim_C4_witness :
    (saveWinner true false
        (saveWinner true false ⟨[]⟩ [("id", Val.int 7), ("number", Val.int 777)]
          "Winners" "t1").2
        [("id", Val.int 7), ("number", Val.int 777)] "Winners" "t2" =
      (true, (saveWinner true false ⟨[]⟩ [("id", Val.int 7), ("number", Val.int 777)]
          "Winners" "t1").2)) ∧
    (∀ existing : List Row, dupWindow existing <:+ existing ∧
      (dupWindow existing).length ≤ 50) :=
  claim_C4_amended_idempotent ⟨[]⟩ [("id", Val.int 7), ("number", Val.int 777)]
    "Winners" "t1" "t2"
    (fun ws h => by simp [findSheet, lookupSheet] at h)
    (Or.inl (by decide))

/-- C5: saving a winner against a winners table name that does not yet exist
creates that table with the header row `timestamp, id, number, name,
description` first, and writes the data row at position 2 — immediately after
the header — with its columns in that same fixed order. -/
theorem claim_C5_lazy_creation (sp : Spreadsheet) (entry : Row) (name ts : String)
    (h : findSheet sp name = Option.none) :
    (saveWinner true false sp entry name ts).1 = true ∧
    findSheet (saveWinner true false sp entry name ts).2 name =
      some ⟨[stdHeader,
        [Val.str ts, getWithDefault entry "id" (Val.str ""),
         getWithDefault entry "number" (Val.str ""),
         getWithDefault entry "name" (Val.str ""),
         getWithDefault entry "description" (Val.str "")]]⟩ := by
  rw [saveWinner_notfound sp entry name ts h]
  refine ⟨rfl, ?_⟩
  rw [setSheet_append_fresh sp.sheets name _ _ h]
  exact lookupSheet_append_self sp.sheets name _ h

/-- C5 witness: saving a concrete entry into an empty store creates the
"Winners" sheet with header plus the one data row at position 2. -/
theorem claim_C5_witness :
    (saveWinner true false ⟨[]⟩
      [("id", Val.int 7), ("number", Val.int 777), ("name", Val.str "Lucky"),
       ("description", Val.str "d")] "Winners" "ts").1 = true ∧
    findSheet (saveWinner true false ⟨[]⟩
      [("id", Val.int 7), ("number", Val.int 777), ("name", Val.str "Lucky"),
       ("description", Val.str "d")] "Winners" "ts").2 "Winners" =
      some ⟨[stdHeader,
        [Val.str "ts",
         getWithDefault [("id", Val.int 7), ("number", Val.int 777),
           ("name", Val.str "Lucky"), ("description", Val.str "d")] "id" (Val.str ""),
         getWithDefault [("id", Val.int 7), ("number", Val.int 777),
           ("name", Val.str "Lucky"), ("description", Val.str "d")] "number" (Val.str ""),
         getWithDefault [("id", Val.int 7), ("number", Val.int 777),
           ("name", Val.str "Lucky"), ("description", Val.str "d")] "name" (Val.str ""),
         getWithDefault [("id", Val.int 7), ("number", Val.int 777),
           ("name", Val.str "Lucky"), ("description", Val.str "d")] "description"
           (Val.str "")]]⟩ :=
  claim_C5_lazy_creation ⟨[]⟩
    [("id", Val.int 7), ("number", Val.int 777), ("name", Val.str "Lucky"),
     ("description", Val.str "d")] "Winners" "ts" rfl

end Luckydex
